import Mathlib

/-
Verification of the Coherence resources discoverer
(core/src/main/python/wlsdeploy/tool/discover/coherence_resources_discoverer.py).

The discoverer walks the CoherenceClusterSystemResource hierarchy of a live
domain, extracts attributes into an ordered model, and relocates referenced
artifacts (config files, persistence directories) into an archive, rewriting
the attribute values.  Python None is embedded as `Option.none`; strings as
`String`; the ordered dictionaries as association lists; Java exceptions as
`Except` errors; the external collaborators (file utilities, java.net.URI,
the archive writer, the WLST provider and alias helper) as explicit
environment records, since their code lives outside this repository.
Each handler also returns the list of observable external operations and
warnings it performed, so that statements about "no archive call happened"
or "a warning was logged" are directly expressible.
-/

namespace WDT

/-- Errors raised by FileUtils.getCanonicalFile: java.io.IOException or
java.lang.SecurityException. -/
inductive CanonErr where
  | ioFailure
  | securityViolation
deriving DecidableEq, Repr

/-- Errors raised by the archive writer methods: java.lang.IllegalArgumentException
or WLSDeployArchiveIOException. -/
inductive ArchiveErr where
  | invalidArg
  | ioFailure
deriving DecidableEq, Repr

/-- Result of a successful java.net.URI parse: the scheme (null for scheme-less
URIs) and the outcome of uri.toURL(), where `none` models a thrown
MalformedURLException. -/
structure Uri where
  scheme : Option String
  toUrlResult : Option String
deriving DecidableEq, Repr

/-- Observable external operations and log warnings performed by a handler. -/
inductive Event where
  | canonicalize (path : String)
  | uriParseAttempt (s : String)
  | archiveConfigFile (cluster : Option String) (f : Option String)
  | archiveConfigFromUrl (cluster : Option String) (url : String)
  | archivePersistDir (cluster : Option String) (dirType : String)
  | warn (messageCode : String)
deriving DecidableEq, Repr

/-- Modelled from the spec: the external collaborators consumed by the
relocation handlers (spec sections 4.3 and 6) — FileUtils.getCanonicalFile,
the java.net.URI constructor, and the three archive-writer operations
addCoherenceConfigFile, addCoherenceConfigFileFromUrl and
addCoherencePersistenceDirectory, each of which may fail with an
archive-specific error (invalid argument, I/O).  The cluster identity is an
`Option String` because the source resolves it from a location token that may
be unbound; the config-file argument is an `Option String` because the source
can pass a null file object through. -/
structure Env where
  canonical : String → Except CanonErr String
  uriParse : String → Option Uri
  addConfigFile : Option String → Option String → Except ArchiveErr String
  addConfigFileFromUrl : Option String → String → Except ArchiveErr String
  addPersistenceDirectory : Option String → String → Except ArchiveErr String

/-- Embeds the module function _get_from_url (source lines 259-276): parse the
file name as a URI; if the scheme is exactly the string http, convert to a URL;
a URISyntaxException or MalformedURLException is caught, a warning
WLSDPLY-06321 is logged, and (False, None) is returned; otherwise (True, url)
is returned, where url is None for a non-http reference. -/
def getFromUrl (env : Env) (_clusterName : Option String) (fileName : String) :
    List Event × (Bool × Option String) :=
  match env.uriParse fileName with
  | none => ([.uriParseAttempt fileName, .warn "WLSDPLY-06321"], (false, none))
  | some uri =>
    if uri.scheme = some "http" then
      match uri.toUrlResult with
      | some u => ([.uriParseAttempt fileName], (true, some u))
      | none => ([.uriParseAttempt fileName, .warn "WLSDPLY-06321"], (false, none))
    else
      ([.uriParseAttempt fileName], (true, none))

/-- Embeds _add_custom_configuration_to_archive (source lines 142-176).
With a non-null value, the source canonicalizes the file (on IOException or
SecurityException it logs WLSDPLY-06314 and sets new_name to None), and then
tests `if file is not None:` — `file` being the Python builtin type, never
None — so the archive call addCoherenceConfigFile runs on every path, with a
null config_file when canonicalization failed; an IllegalArgumentException or
WLSDeployArchiveIOException from the archive is caught, WLSDPLY-06316 logged,
and new_name set to None. -/
def addCustomConfigurationToArchive (env : Env) (clusterName : Option String)
    (modelValue : Option String) : List Event × Option String :=
  match modelValue with
  | none => ([], none)
  | some v =>
    let canonRes := env.canonical v
    let ev1 : List Event :=
      match canonRes with
      | .ok _ => [.canonicalize v]
      | .error _ => [.canonicalize v, .warn "WLSDPLY-06314"]
    let configFile : Option String :=
      match canonRes with
      | .ok f => some f
      | .error _ => none
    match env.addConfigFile clusterName configFile with
    | .ok n => (ev1 ++ [.archiveConfigFile clusterName configFile], some n)
    | .error _ => (ev1 ++ [.archiveConfigFile clusterName configFile, .warn "WLSDPLY-06316"], none)

/-- Embeds _add_cache_config (source lines 178-217).  With a non-null value,
classify via _get_from_url; if classification succeeded and produced a URL,
archive from the URL; if it succeeded without a URL, archive the value as a
local file; in either branch an IllegalArgumentException or
WLSDeployArchiveIOException is caught, WLSDPLY-06318 logged, and the value
nulled.  If classification failed (success = False), neither branch runs and
the original value is returned unchanged. -/
def addCacheConfig (env : Env) (clusterName : Option String)
    (modelValue : Option String) : List Event × Option String :=
  match modelValue with
  | none => ([], none)
  | some v =>
    let r := getFromUrl env clusterName v
    match r.2 with
    | (true, some u) =>
      (match env.addConfigFileFromUrl clusterName u with
       | .ok n => (r.1 ++ [.archiveConfigFromUrl clusterName u], some n)
       | .error _ => (r.1 ++ [.archiveConfigFromUrl clusterName u, .warn "WLSDPLY-06318"], none))
    | (true, none) =>
      (match env.addConfigFile clusterName (some v) with
       | .ok n => (r.1 ++ [.archiveConfigFile clusterName (some v)], some n)
       | .error _ => (r.1 ++ [.archiveConfigFile clusterName (some v), .warn "WLSDPLY-06318"], none))
    | (false, _) => (r.1, some v)

/-- Embeds _add_persistence_directory (source lines 228-256).  With a non-null
value, ask the archive for a directory of the given type for the cluster; only
WLSDeployArchiveIOException is caught there (warning WLSDPLY-06318, value
nulled) — an IllegalArgumentException is not caught and escapes the handler,
modelled by the `Except.error` result. -/
def addPersistenceDirectory (env : Env) (clusterName : Option String)
    (modelValue : Option String) (dirType : String) :
    List Event × Except ArchiveErr (Option String) :=
  match modelValue with
  | none => ([], .ok none)
  | some _ =>
    match env.addPersistenceDirectory clusterName dirType with
    | .ok n => ([.archivePersistDir clusterName dirType], .ok (some n))
    | .error .ioFailure =>
        ([.archivePersistDir clusterName dirType, .warn "WLSDPLY-06318"], .ok none)
    | .error .invalidArg =>
        ([.archivePersistDir clusterName dirType], .error .invalidArg)

/-- Embeds _add_active_directory (source lines 219-220). -/
def addActiveDirectory (env : Env) (clusterName : Option String)
    (modelValue : Option String) : List Event × Except ArchiveErr (Option String) :=
  addPersistenceDirectory env clusterName modelValue "active"

/-- Embeds _add_snapshot_directory (source lines 222-223). -/
def addSnapshotDirectory (env : Env) (clusterName : Option String)
    (modelValue : Option String) : List Event × Except ArchiveErr (Option String) :=
  addPersistenceDirectory env clusterName modelValue "snapshot"

/-- Embeds _add_trash_directory (source lines 225-226). -/
def addTrashDirectory (env : Env) (clusterName : Option String)
    (modelValue : Option String) : List Event × Except ArchiveErr (Option String) :=
  addPersistenceDirectory env clusterName modelValue "trash"

/-- Embeds wlsdeploy.aliases.location_context.LocationContext as used by the
source: an ordered list of folder-name segments plus a mapping from token name
to the bound instance name.  The collaborating class is outside src, so the
operations follow the spec (section 4.1): append pushes a segment, pop removes
the most recent one, tokens are set and removed by name. -/
structure LocationContext where
  path : List String
  tokens : List (String × String)
deriving DecidableEq, Repr

/-- Location with an empty path and no bound tokens, LocationContext(). -/
def LocationContext.empty : LocationContext := ⟨[], []⟩

/-- Embeds location.append_location(name). -/
def LocationContext.appendLocation (l : LocationContext) (s : String) : LocationContext :=
  ⟨l.path ++ [s], l.tokens⟩

/-- Embeds location.pop_location(). -/
def LocationContext.popLocation (l : LocationContext) : LocationContext :=
  ⟨l.path.dropLast, l.tokens⟩

/-- Embeds location.add_name_token(token, name): the token is (re)bound. -/
def LocationContext.addNameToken (l : LocationContext) (t v : String) : LocationContext :=
  ⟨l.path, (t, v) :: l.tokens.filter (fun q => q.1 != t)⟩

/-- Embeds location.remove_name_token(token). -/
def LocationContext.removeNameToken (l : LocationContext) (t : String) : LocationContext :=
  ⟨l.path, l.tokens.filter (fun q => q.1 != t)⟩

/-- Embeds location.get_name_for_token(token): the bound name, or None. -/
def LocationContext.getNameForToken (l : LocationContext) (t : String) : Option String :=
  (l.tokens.find? (fun q => q.1 == t)).map (fun q => q.2)

/-- Modelled from the spec: the external resource provider and alias metadata
(spec section 6) behind the Discoverer base-class helpers used by the source —
_find_names_in_folder (instance names at a location, None when the folder is
absent), _alias_helper.get_name_token (a token identifier determined by the
folder path), the raw attributes read by _populate_model_parameters, and the
declared sub-resource folder names recursed into by _discover_subfolders. -/
structure Provider where
  findNames : LocationContext → Option (List String)
  nameToken : List String → String
  attributes : LocationContext → List (String × Option String)
  subfolders : LocationContext → List String

/-- Nested discovered model: an attribute value or an ordered sub-dictionary. -/
inductive Model where
  | leaf (v : Option String)
  | dict (entries : List (String × Model))
deriving Repr

/-- Value of model_constants.COHERENCE_CLUSTER_SYSTEM_RESOURCE; the string is
fixed by the spec scenario in section 8. -/
def COHERENCE_CLUSTER_SYSTEM_RESOURCE : String := "CoherenceClusterSystemResource"

/-- Value of model_constants.COHERENCE_CACHE_CONFIG_FILE; the string is fixed
by the spec scenario in section 8. -/
def COHERENCE_CACHE_CONFIG_FILE : String := "CoherenceCacheConfigFile"

/-- Modelled from the spec: the remaining model_constants folder and attribute
names used by the source are external metadata (spec section 1 non-goals);
they are embedded as distinct placeholder strings. -/
def COHERENCE_CACHE_CONFIG : String := "CoherenceCacheConfig"

/-- Modelled from the spec: placeholder for model_constants.COHERENCE_RESOURCE. -/
def COHERENCE_RESOURCE : String := "CoherenceResource"

/-- Modelled from the spec: placeholder for
model_constants.COHERENCE_CUSTOM_CLUSTER_CONFIGURATION. -/
def COHERENCE_CUSTOM_CLUSTER_CONFIGURATION : String := "CustomClusterConfigurationFileName"

/-- Modelled from the spec: placeholder for
model_constants.COHERENCE_ACTIVE_DIRECTORY. -/
def COHERENCE_ACTIVE_DIRECTORY : String := "CoherenceActiveDirectory"

/-- Modelled from the spec: placeholder for
model_constants.COHERENCE_SNAPSHOT_DIRECTORY. -/
def COHERENCE_SNAPSHOT_DIRECTORY : String := "CoherenceSnapshotDirectory"

/-- Modelled from the spec: placeholder for
model_constants.COHERENCE_TRASH_DIRECTORY. -/
def COHERENCE_TRASH_DIRECTORY : String := "CoherenceTrashDirectory"

/-- Modelled from the spec: discoverer.add_to_model_if_not_empty — a sub-result
is folded into the parent dictionary only when it is non-empty (spec sections
3 and 4.5). -/
def addToModelIfNotEmpty (d : List (String × Model)) (k : String)
    (r : List (String × Model)) : List (String × Model) :=
  if r.isEmpty then d else d ++ [(k, Model.dict r)]

/-- Embeds the cluster-name resolution done at the top of each handler (source
lines 151-153 and analogues): a fresh LocationContext with the
CoherenceClusterSystemResource folder appended yields the cluster name token,
which is resolved against the live location. -/
def clusterNameOf (p : Provider) (loc : LocationContext) : Option String :=
  loc.getNameForToken (p.nameToken (LocationContext.empty.appendLocation
    COHERENCE_CLUSTER_SYSTEM_RESOURCE).path)

/-- Result of an escaped handler exception collapsed to a null value.
Modelled from the spec: the attribute-handler boundary converts any failure
that escapes a handler into a nil value so traversal never aborts
(spec section 4.2). -/
def exceptToNil (r : Except ArchiveErr (Option String)) : Option String :=
  match r with
  | .ok v => v
  | .error _ => none

/-- Embeds the handler dispatch registered in __init__ (source lines 43-48)
together with the base-class application point, modelled from the spec
(section 4.2): a registered attribute name is transformed by its handler,
every other attribute passes through unchanged. -/
def applyHandler (env : Env) (p : Provider) (loc : LocationContext)
    (name : String) (v : Option String) : Option String :=
  if name = COHERENCE_CUSTOM_CLUSTER_CONFIGURATION then
    (addCustomConfigurationToArchive env (clusterNameOf p loc) v).2
  else if name = COHERENCE_CACHE_CONFIG_FILE then
    (addCacheConfig env (clusterNameOf p loc) v).2
  else if name = COHERENCE_ACTIVE_DIRECTORY then
    exceptToNil (addActiveDirectory env (clusterNameOf p loc) v).2
  else if name = COHERENCE_SNAPSHOT_DIRECTORY then
    exceptToNil (addSnapshotDirectory env (clusterNameOf p loc) v).2
  else if name = COHERENCE_TRASH_DIRECTORY then
    exceptToNil (addTrashDirectory env (clusterNameOf p loc) v).2
  else v

/-- Modelled from the spec: _populate_model_parameters of the Discoverer base
class (spec section 4.4 step 3b) — read the raw attributes at the location and
collect them, each transformed by the registered handler if any. -/
def populateModelParameters (p : Provider) (env : Env) (loc : LocationContext) :
    List (String × Model) :=
  (p.attributes loc).map (fun a => (a.1, Model.leaf (applyHandler env p loc a.1 a.2)))

/-- Modelled from the spec: _discover_subfolders of the Discoverer base class
(spec section 4.4 steps 1-5) — for each declared sub-resource folder, append
the folder, enumerate instances, bind the name token, populate attributes,
recurse, unbind, and fold the sub-result into the parent only if non-empty.
The fuel argument bounds the recursion depth of the generic walk. -/
def discoverSubfolders (p : Provider) (env : Env) : Nat → LocationContext → List (String × Model)
  | 0, _ => []
  | fuel + 1, loc =>
    (p.subfolders loc).foldl (fun acc sub =>
      let loc1 := loc.appendLocation sub
      let r : List (String × Model) :=
        match p.findNames loc1 with
        | none => []
        | some names =>
          let token := p.nameToken loc1.path
          names.foldl (fun racc nm =>
            let l := loc1.addNameToken token nm
            racc ++ [(nm, Model.dict (populateModelParameters p env l ++
              discoverSubfolders p env fuel l))]) []
      addToModelIfNotEmpty acc sub r) []

/-- Loop body of get_coherence_cache_config (source lines 110-117): bind the
cache-config name token, populate attributes and generic subfolders into a
fresh entry, and remove the token. -/
def cacheConfigStep (p : Provider) (env : Env) (fuel : Nat) (token : String)
    (acc : List (String × Model) × LocationContext) (cc : String) :
    List (String × Model) × LocationContext :=
  let l := acc.2.addNameToken token cc
  let entry := populateModelParameters p env l ++ discoverSubfolders p env fuel l
  (acc.1 ++ [(cc, Model.dict entry)], l.removeNameToken token)

/-- Embeds get_coherence_cache_config (source lines 95-120): append the
CoherenceCacheConfig folder, enumerate the cache configs, and run the loop
body for each one; the folder is popped before returning.  The final state of
the mutated location is returned alongside the result. -/
def getCoherenceCacheConfig (p : Provider) (env : Env) (fuel : Nat)
    (loc : LocationContext) : (String × List (String × Model)) × LocationContext :=
  let loc1 := loc.appendLocation COHERENCE_CACHE_CONFIG
  let st :=
    match p.findNames loc1 with
    | none => (([] : List (String × Model)), loc1)
    | some cacheConfigs =>
      cacheConfigs.foldl (cacheConfigStep p env fuel (p.nameToken loc1.path)) ([], loc1)
  ((COHERENCE_CACHE_CONFIG, st.1), st.2.popLocation)

/-- Embeds get_coherence_resource (source lines 122-138): append the
CoherenceResource folder, populate attributes and generic subfolders directly
(no instance enumeration), and pop the folder before returning. -/
def getCoherenceResource (p : Provider) (env : Env) (fuel : Nat)
    (loc : LocationContext) : (String × List (String × Model)) × LocationContext :=
  let loc1 := loc.appendLocation COHERENCE_RESOURCE
  let result := populateModelParameters p env loc1 ++ discoverSubfolders p env fuel loc1
  ((COHERENCE_RESOURCE, result), loc1.popLocation)

/-- Loop body of get_coherence_clusters (source lines 79-88): bind the cluster
name token, populate attributes, walk the cache configs and the coherence
resource (folding each sub-result in only if non-empty), and remove the
token. -/
def clusterStep (p : Provider) (env : Env) (fuel : Nat) (token : String)
    (acc : List (String × Model) × LocationContext) (c : String) :
    List (String × Model) × LocationContext :=
  let l := acc.2.addNameToken token c
  let attrs := populateModelParameters p env l
  let cc := getCoherenceCacheConfig p env fuel l
  let e1 := addToModelIfNotEmpty attrs cc.1.1 cc.1.2
  let cr := getCoherenceResource p env fuel cc.2
  let e2 := addToModelIfNotEmpty e1 cr.1.1 cr.1.2
  (acc.1 ++ [(c, Model.dict e2)], cr.2.removeNameToken token)

/-- Embeds get_coherence_clusters (source lines 64-91): copy the base
location, append the CoherenceClusterSystemResource folder, enumerate the
clusters, and run the loop body for each one.  The appended folder is never
popped; the final state of the local location copy is returned alongside the
result. -/
def getCoherenceClusters (p : Provider) (env : Env) (fuel : Nat)
    (base : LocationContext) : (String × List (String × Model)) × LocationContext :=
  let location := base.appendLocation COHERENCE_CLUSTER_SYSTEM_RESOURCE
  match p.findNames location with
  | none => ((COHERENCE_CLUSTER_SYSTEM_RESOURCE, []), location)
  | some coherenceClusters =>
    let final := coherenceClusters.foldl
      (clusterStep p env fuel (p.nameToken location.path)) ([], location)
    ((COHERENCE_CLUSTER_SYSTEM_RESOURCE, final.1), final.2)

/-- Embeds discover (source lines 50-62): walk the clusters once, fold the
result into the dictionary supplied at construction only if non-empty, and
return the root folder name together with that dictionary. -/
def discover (p : Provider) (env : Env) (fuel : Nat) (base : LocationContext)
    (dictionary : List (String × Model)) : String × List (String × Model) :=
  let pr := getCoherenceClusters p env fuel base
  (pr.1.1, addToModelIfNotEmpty dictionary pr.1.1 pr.1.2)

/-- Depth-bounded check for an empty dictionary anywhere in a model value. -/
def hasEmptyDictUpTo : Nat → Model → Bool
  | 0, _ => false
  | _ + 1, .leaf _ => false
  | n + 1, .dict es => es.isEmpty || es.any (fun e => hasEmptyDictUpTo n e.2)

/-- Test for a remote-fetch archive operation among the recorded events. -/
def isRemoteFetch : Event → Bool
  | .archiveConfigFromUrl _ _ => true
  | _ => false

/-- Test for a file-based archive operation among the recorded events. -/
def isFileArchive : Event → Bool
  | .archiveConfigFile _ _ => true
  | _ => false

/-- Concrete environment in which every external operation succeeds and the
string "::not a valid uri::" fails URI parsing (as it does under
java.net.URI, which rejects an empty scheme). -/
def envAcceptAll : Env where
  canonical := fun s => .ok (s ++ ".canon")
  uriParse := fun s => if s = "::not a valid uri::" then none else some ⟨none, none⟩
  addConfigFile := fun _ _ => .ok "archived-name"
  addConfigFileFromUrl := fun _ _ => .ok "archived-url"
  addPersistenceDirectory := fun _ _ => .ok "archived-dir"

/-- Concrete environment in which canonicalization raises an I/O error and
every archive operation fails. -/
def envAllFail : Env where
  canonical := fun _ => .error .ioFailure
  uriParse := fun _ => some ⟨none, none⟩
  addConfigFile := fun _ _ => .error .invalidArg
  addConfigFileFromUrl := fun _ _ => .error .ioFailure
  addPersistenceDirectory := fun _ _ => .error .ioFailure

/-- Concrete environment exercising every catch clause of the handlers:
canonicalization succeeds, the string "V2" parses as an http URL, every
config-file archive operation fails, and the persistence-directory archive
operation fails with an I/O error for the active kind and with an
invalid-argument error for every other kind. -/
def envMixedFail : Env where
  canonical := fun _ => .ok "CF"
  uriParse := fun s => if s = "V2" then some ⟨some "http", some "URL"⟩ else some ⟨none, none⟩
  addConfigFile := fun _ _ => .error .ioFailure
  addConfigFileFromUrl := fun _ _ => .error .ioFailure
  addPersistenceDirectory := fun _ d => if d = "active" then .error .ioFailure else .error .invalidArg

/-- Concrete environment in which "https://host/cache.xml" parses as a URI
with the https scheme and the file-based archive operation succeeds. -/
def envHttps : Env where
  canonical := fun s => .ok s
  uriParse := fun s =>
    if s = "https://host/cache.xml" then some ⟨some "https", some "https://host/cache.xml"⟩
    else some ⟨none, none⟩
  addConfigFile := fun _ _ => .ok "archived-local"
  addConfigFileFromUrl := fun _ _ => .ok "archived-remote"
  addPersistenceDirectory := fun _ _ => .ok "archived-dir"

/-- Concrete environment for the spec scenario of section 8: the archive
accepts the cache config file under the archive-assigned name. -/
def envScenario : Env where
  canonical := fun s => .ok s
  uriParse := fun _ => some ⟨none, none⟩
  addConfigFile := fun _ _ => .ok "wlsdeploy/coherence/myCluster/cache-config.xml"
  addConfigFileFromUrl := fun _ _ => .error .ioFailure
  addPersistenceDirectory := fun _ _ => .error .ioFailure

/-- Concrete provider for the spec scenario of section 8: one cluster named
myCluster whose only attribute is COHERENCE_CACHE_CONFIG_FILE with the local
path /tmp/cache-config.xml; no cache configs, no other attributes, no generic
subfolders. -/
def pScenario : Provider where
  findNames := fun l =>
    if l.path = [COHERENCE_CLUSTER_SYSTEM_RESOURCE] then some ["myCluster"] else some []
  nameToken := fun _ => "NAME"
  attributes := fun l =>
    if l.path = [COHERENCE_CLUSTER_SYSTEM_RESOURCE] then
      [(COHERENCE_CACHE_CONFIG_FILE, some "/tmp/cache-config.xml")]
    else []
  subfolders := fun _ => []

/-- Concrete provider reporting an empty instance set at every level. -/
def pEmptyAll : Provider where
  findNames := fun _ => some []
  nameToken := fun _ => "NAME"
  attributes := fun _ => []
  subfolders := fun _ => []

/-- Concrete provider reporting a single cluster with no attributes at all. -/
def pOneBareCluster : Provider where
  findNames := fun l =>
    if l.path = [COHERENCE_CLUSTER_SYSTEM_RESOURCE] then some ["c"] else some []
  nameToken := fun _ => "NAME"
  attributes := fun _ => []
  subfolders := fun _ => []

/-- Concrete provider reporting two clusters, with a distinct name token per
folder path. -/
def pTwoClusters : Provider where
  findNames := fun l =>
    if l.path = [COHERENCE_CLUSTER_SYSTEM_RESOURCE] then some ["a", "b"] else some []
  nameToken := fun path => String.join path
  attributes := fun _ => []
  subfolders := fun _ => []

/-
Helper lemmas about the location discipline of the walk methods.
-/

/-- Popping an appended segment restores the location. -/
lemma pop_append (l : LocationContext) (s : String) :
    (l.appendLocation s).popLocation = l := by
  simp [LocationContext.appendLocation, LocationContext.popLocation, List.dropLast_concat]

/-- Filtering out a token twice is the same as filtering it out once. -/
lemma filter_bne_idem (t : String) (l : List (String × String)) :
    (l.filter (fun q => q.1 != t)).filter (fun q => q.1 != t) =
      l.filter (fun q => q.1 != t) := by
  rw [List.filter_filter]
  simp

/-- Removing a token right after binding it leaves the tokens filtered of that
token. -/
lemma removeAdd (l : LocationContext) (t v : String) :
    (l.addNameToken t v).removeNameToken t =
      ⟨l.path, l.tokens.filter (fun q => q.1 != t)⟩ := by
  simp [LocationContext.addNameToken, LocationContext.removeNameToken, filter_bne_idem]

/-- A fold whose step preserves the location component keeps it fixed. -/
lemma foldl_snd_fixed {α β : Type} (f : β × LocationContext → α → β × LocationContext)
    (L : LocationContext) (hf : ∀ st a, st.2 = L → (f st a).2 = L) :
    ∀ (xs : List α) (st : β × LocationContext), st.2 = L → (xs.foldl f st).2 = L := by
  intro xs
  induction xs with
  | nil => intro st h; simpa using h
  | cons x xs ih => intro st h; exact ih _ (hf st x h)

/-- The coherence-resource walk returns the location it was given. -/
lemma getCoherenceResource_loc (p : Provider) (env : Env) (fuel : Nat)
    (loc : LocationContext) : (getCoherenceResource p env fuel loc).2 = loc := by
  simp [getCoherenceResource, pop_append]

/-- The cache-config loop body preserves the location when the cache-config
token is not otherwise bound. -/
lemma cacheConfigStep_snd (p : Provider) (env : Env) (fuel : Nat) (L : LocationContext)
    (h : L.tokens.filter (fun q => q.1 != p.nameToken L.path) = L.tokens)
    (st : List (String × Model) × LocationContext) (cc : String) (hst : st.2 = L) :
    (cacheConfigStep p env fuel (p.nameToken L.path) st cc).2 = L := by
  simp only [cacheConfigStep, hst, removeAdd, h]

/-- The cache-config walk returns the location it was given, provided the
cache-config name token is not bound in the incoming location. -/
lemma getCoherenceCacheConfig_loc (p : Provider) (env : Env) (fuel : Nat)
    (loc : LocationContext)
    (h : loc.tokens.filter
      (fun q => q.1 != p.nameToken (loc.path ++ [COHERENCE_CACHE_CONFIG])) = loc.tokens) :
    (getCoherenceCacheConfig p env fuel loc).2 = loc := by
  unfold getCoherenceCacheConfig
  cases hf : p.findNames (loc.appendLocation COHERENCE_CACHE_CONFIG) with
  | none => simp [hf, pop_append]
  | some names =>
    have h1 : (loc.appendLocation COHERENCE_CACHE_CONFIG).tokens.filter
        (fun q => q.1 != p.nameToken (loc.appendLocation COHERENCE_CACHE_CONFIG).path) =
        (loc.appendLocation COHERENCE_CACHE_CONFIG).tokens := by
      simpa [LocationContext.appendLocation] using h
    have h2 := foldl_snd_fixed
      (cacheConfigStep p env fuel
        (p.nameToken (loc.appendLocation COHERENCE_CACHE_CONFIG).path))
      (loc.appendLocation COHERENCE_CACHE_CONFIG)
      (fun st a hst => cacheConfigStep_snd p env fuel _ h1 st a hst)
      names ([], loc.appendLocation COHERENCE_CACHE_CONFIG) rfl
    simp [hf, h2, pop_append]

/-- The cluster loop body preserves the location when the cluster token and
the cache-config token are fresh and distinct. -/
lemma clusterStep_snd (p : Provider) (env : Env) (fuel : Nat)
    (L : LocationContext) (tok : String)
    (h1 : L.tokens.filter (fun q => q.1 != tok) = L.tokens)
    (h2 : (tok != p.nameToken (L.path ++ [COHERENCE_CACHE_CONFIG])) = true)
    (h3 : L.tokens.filter
      (fun q => q.1 != p.nameToken (L.path ++ [COHERENCE_CACHE_CONFIG])) = L.tokens) :
    ∀ st c, st.2 = L → (clusterStep p env fuel tok st c).2 = L := by
  intro st c hst
  have hl : st.2.addNameToken tok c = ⟨L.path, (tok, c) :: L.tokens⟩ := by
    rw [hst]; simp [LocationContext.addNameToken, h1]
  have hcc : (getCoherenceCacheConfig p env fuel (st.2.addNameToken tok c)).2 =
      st.2.addNameToken tok c := by
    apply getCoherenceCacheConfig_loc
    rw [hl]
    simp [List.filter_cons, h2, h3]
  simp only [clusterStep]
  rw [hcc, getCoherenceResource_loc, hst, removeAdd, h1]

/-- The cluster walk ends with the root folder still appended to its local
location copy, all instance tokens removed, provided the cluster and
cache-config name tokens are fresh and distinct. -/
lemma getCoherenceClusters_loc (p : Provider) (env : Env) (fuel : Nat)
    (base : LocationContext)
    (h1 : base.tokens.filter
      (fun q => q.1 != p.nameToken (base.path ++ [COHERENCE_CLUSTER_SYSTEM_RESOURCE])) =
      base.tokens)
    (h2 : p.nameToken (base.path ++ [COHERENCE_CLUSTER_SYSTEM_RESOURCE]) ≠
      p.nameToken (base.path ++ [COHERENCE_CLUSTER_SYSTEM_RESOURCE] ++ [COHERENCE_CACHE_CONFIG]))
    (h3 : base.tokens.filter
      (fun q => q.1 != p.nameToken
        (base.path ++ [COHERENCE_CLUSTER_SYSTEM_RESOURCE] ++ [COHERENCE_CACHE_CONFIG])) =
      base.tokens) :
    (getCoherenceClusters p env fuel base).2 =
      base.appendLocation COHERENCE_CLUSTER_SYSTEM_RESOURCE := by
  unfold getCoherenceClusters
  cases hf : p.findNames (base.appendLocation COHERENCE_CLUSTER_SYSTEM_RESOURCE) with
  | none => simp [hf]
  | some cs =>
    have hstep := clusterStep_snd p env fuel
      (base.appendLocation COHERENCE_CLUSTER_SYSTEM_RESOURCE)
      (p.nameToken (base.appendLocation COHERENCE_CLUSTER_SYSTEM_RESOURCE).path)
      (by simpa [LocationContext.appendLocation] using h1)
      (by simpa [LocationContext.appendLocation, bne_iff_ne] using h2)
      (by simpa [LocationContext.appendLocation] using h3)
    have hres := foldl_snd_fixed _ _ (fun st a h => hstep st a h) cs
      ([], base.appendLocation COHERENCE_CLUSTER_SYSTEM_RESOURCE) rfl
    simp [hf, hres]

/-- The cluster walk always reports the root folder name. -/
lemma getCoherenceClusters_fst (p : Provider) (env : Env) (fuel : Nat)
    (base : LocationContext) :
    (getCoherenceClusters p env fuel base).1.1 = COHERENCE_CLUSTER_SYSTEM_RESOURCE := by
  cases hf : p.findNames (base.appendLocation COHERENCE_CLUSTER_SYSTEM_RESOURCE) <;>
    simp [getCoherenceClusters, hf]

/-- Claim C1, counterexample: on the input "::not a valid uri::", whose URI
parse fails, the cache-config handler logs warning WLSDPLY-06321 and returns
the original string unchanged; it performs no file-based archive operation,
even though the archive writer would have accepted the file.  It does not
fall through to file-based archiving as the claim states. -/
theorem parse_failure_no_fallback :
    addCacheConfig envAcceptAll (some "myCluster") (some "::not a valid uri::") =
      ([.uriParseAttempt "::not a valid uri::", .warn "WLSDPLY-06321"],
       some "::not a valid uri::")
    ∧ (addCacheConfig envAcceptAll (some "myCluster") (some "::not a valid uri::")).1.any
        isFileArchive = false
    ∧ envAcceptAll.addConfigFile (some "myCluster") (some "::not a valid uri::") =
        .ok "archived-name" :=
  ⟨rfl, rfl, rfl⟩

/-- Claim C1, amended: for every input string whose URI parse fails,
classification fails closed to not-a-URL with success false, a warning
(WLSDPLY-06321) is logged, and the handler returns the original value
unchanged, performing no archiving of any kind and never raising past the
handler. -/
theorem cacheConfig_parse_failure (env : Env) (cn : Option String) (v : String)
    (h : env.uriParse v = none) :
    addCacheConfig env cn (some v) =
      ([.uriParseAttempt v, .warn "WLSDPLY-06321"], some v) := by
  simp [addCacheConfig, getFromUrl, h]

/-- Claim C1, witness: the amended theorem applied to the concrete input
"::not a valid uri::" in an environment where its URI parse fails. -/
theorem cacheConfig_parse_failure_witness :
    envAcceptAll.uriParse "::not a valid uri::" = none
    ∧ addCacheConfig envAcceptAll (some "c") (some "::not a valid uri::") =
      ([.uriParseAttempt "::not a valid uri::", .warn "WLSDPLY-06321"],
       some "::not a valid uri::") :=
  ⟨rfl, cacheConfig_parse_failure envAcceptAll (some "c") "::not a valid uri::" rfl⟩

/-- Claim C2: evaluation of the custom-configuration handler at a failing
input.  When canonicalization of "/bad/path" raises an I/O error, the handler
logs warning WLSDPLY-06314 — but then still hands a null file to the archive
writer (event archiveConfigFile with a none file), because the source guard
`if file is not None:` tests the Python builtin `file` rather than the local
config_file, so it is never skipped.  The claim (return nil immediately,
without attempting the archive call) describes the evident intent; the code
contradicts it. -/
theorem custom_config_bug :
    addCustomConfigurationToArchive envAllFail (some "c") (some "/bad/path") =
      ([.canonicalize "/bad/path", .warn "WLSDPLY-06314",
        .archiveConfigFile (some "c") none, .warn "WLSDPLY-06316"], none)
    ∧ envAllFail.canonical "/bad/path" = .error .ioFailure :=
  ⟨rfl, rfl⟩

/-- Claim C3, counterexample: an invalid-argument error raised by the archive
writer inside the persistence-directory handler is not caught at the call
site — the handler result is the escaping error, not a nil value, because the
source catches only WLSDeployArchiveIOException there. -/
theorem persistence_invalidArg_escapes :
    addPersistenceDirectory envMixedFail (some "c") (some "/d") "snapshot" =
      ([.archivePersistDir (some "c") "snapshot"], .error .invalidArg) := rfl

/-- Claim C3, amended: the custom-configuration and cache-config handlers
catch both archive-level failures (invalid argument and I/O) at the call
site, log a warning and null the value, on the file branch and on the URL
branch alike; the persistence-directory handler catches only the archive I/O
error (warning logged, value nulled), while an invalid-argument error from
the persistence allocation escapes the handler. -/
theorem handlers_catch (env : Env) (cn : Option String) (v v2 cf url : String)
    (u u2 : Uri) (e1 e2 e3 : ArchiveErr)
    (hc : env.canonical v = .ok cf)
    (ha1 : env.addConfigFile cn (some cf) = .error e1)
    (hu : env.uriParse v = some u)
    (hs : u.scheme ≠ some "http")
    (ha2 : env.addConfigFile cn (some v) = .error e2)
    (hu2 : env.uriParse v2 = some u2)
    (hs2 : u2.scheme = some "http")
    (ht2 : u2.toUrlResult = some url)
    (ha3 : env.addConfigFileFromUrl cn url = .error e3)
    (hp1 : env.addPersistenceDirectory cn "active" = .error .ioFailure)
    (hp2 : env.addPersistenceDirectory cn "snapshot" = .error .invalidArg) :
    addCustomConfigurationToArchive env cn (some v) =
      ([.canonicalize v, .archiveConfigFile cn (some cf), .warn "WLSDPLY-06316"], none)
    ∧ addCacheConfig env cn (some v) =
      ([.uriParseAttempt v, .archiveConfigFile cn (some v), .warn "WLSDPLY-06318"], none)
    ∧ addCacheConfig env cn (some v2) =
      ([.uriParseAttempt v2, .archiveConfigFromUrl cn url, .warn "WLSDPLY-06318"], none)
    ∧ addPersistenceDirectory env cn (some v) "active" =
      ([.archivePersistDir cn "active", .warn "WLSDPLY-06318"], .ok none)
    ∧ addPersistenceDirectory env cn (some v) "snapshot" =
      ([.archivePersistDir cn "snapshot"], .error .invalidArg) := by
  refine ⟨?_, ?_, ?_, ?_, ?_⟩
  · simp [addCustomConfigurationToArchive, hc, ha1]
  · simp [addCacheConfig, getFromUrl, hu, hs, ha2]
  · simp [addCacheConfig, getFromUrl, hu2, hs2, ht2, ha3]
  · simp [addPersistenceDirectory, hp1]
  · simp [addPersistenceDirectory, hp2]

/-- Claim C3, witness: the amended theorem applied to a concrete environment
exercising every catch clause. -/
theorem handlers_catch_witness :
    envMixedFail.canonical "V" = .ok "CF"
    ∧ envMixedFail.addConfigFile (some "c") (some "CF") = .error .ioFailure
    ∧ envMixedFail.uriParse "V" = some ⟨none, none⟩
    ∧ (Uri.scheme ⟨none, none⟩ ≠ some "http")
    ∧ envMixedFail.addConfigFile (some "c") (some "V") = .error .ioFailure
    ∧ envMixedFail.uriParse "V2" = some ⟨some "http", some "URL"⟩
    ∧ Uri.scheme ⟨some "http", some "URL"⟩ = some "http"
    ∧ Uri.toUrlResult ⟨some "http", some "URL"⟩ = some "URL"
    ∧ envMixedFail.addConfigFileFromUrl (some "c") "URL" = .error .ioFailure
    ∧ envMixedFail.addPersistenceDirectory (some "c") "active" = .error .ioFailure
    ∧ envMixedFail.addPersistenceDirectory (some "c") "snapshot" = .error .invalidArg
    ∧ (addCustomConfigurationToArchive envMixedFail (some "c") (some "V") =
        ([.canonicalize "V", .archiveConfigFile (some "c") (some "CF"),
          .warn "WLSDPLY-06316"], none)
      ∧ addCacheConfig envMixedFail (some "c") (some "V") =
        ([.uriParseAttempt "V", .archiveConfigFile (some "c") (some "V"),
          .warn "WLSDPLY-06318"], none)
      ∧ addCacheConfig envMixedFail (some "c") (some "V2") =
        ([.uriParseAttempt "V2", .archiveConfigFromUrl (some "c") "URL",
          .warn "WLSDPLY-06318"], none)
      ∧ addPersistenceDirectory envMixedFail (some "c") (some "V") "active" =
        ([.archivePersistDir (some "c") "active", .warn "WLSDPLY-06318"], .ok none)
      ∧ addPersistenceDirectory envMixedFail (some "c") (some "V") "snapshot" =
        ([.archivePersistDir (some "c") "snapshot"], .error .invalidArg)) :=
  ⟨rfl, rfl, rfl, by decide, rfl, rfl, rfl, rfl, rfl, rfl, rfl,
   handlers_catch envMixedFail (some "c") "V" "V2" "CF" "URL"
     ⟨none, none⟩ ⟨some "http", some "URL"⟩ .ioFailure .ioFailure .ioFailure
     rfl rfl rfl (by decide) rfl rfl rfl rfl rfl rfl rfl⟩

/-- Claim C4, counterexample: a provider reporting one cluster with no
attributes, no cache configs and no subfolders yields a final model that
contains an empty container — the instance map of the cluster is inserted
unconditionally even when empty, so the no-empty-containers invariant fails. -/
theorem empty_model_has_empty_container :
    (discover pOneBareCluster envAcceptAll 1 LocationContext.empty []).2 =
      [(COHERENCE_CLUSTER_SYSTEM_RESOURCE, Model.dict [("c", Model.dict [])])]
    ∧ (discover pOneBareCluster envAcceptAll 1 LocationContext.empty []).2.any
        (fun e => hasEmptyDictUpTo 3 e.2) = true :=
  ⟨rfl, rfl⟩

/-- Claim C4, amended: sub-results are folded into their parent only if
non-empty, and when the provider returns an empty instance set at every
level, discover() returns the root key together with the output dictionary
unchanged (no nested keys); however an instance with no attributes and no
non-empty sub-results still appears as an empty map in the model. -/
theorem discover_empty (p : Provider) (env : Env) (fuel : Nat) (base : LocationContext)
    (d : List (String × Model)) (h : ∀ loc, p.findNames loc = some []) :
    discover p env fuel base d = (COHERENCE_CLUSTER_SYSTEM_RESOURCE, d) := by
  simp [discover, getCoherenceClusters, addToModelIfNotEmpty, h]

/-- Claim C4, witness: the amended theorem applied to a provider that reports
an empty instance set everywhere. -/
theorem discover_empty_witness :
    (∀ loc, pEmptyAll.findNames loc = some [])
    ∧ discover pEmptyAll envAcceptAll 2 LocationContext.empty [] =
      (COHERENCE_CLUSTER_SYSTEM_RESOURCE, []) :=
  ⟨fun _ => rfl,
   discover_empty pEmptyAll envAcceptAll 2 LocationContext.empty [] (fun _ => rfl)⟩

/-- Claim C5, counterexample: the cluster walk appends the root folder
segment to its local location copy and returns without popping it, so the
final path of that location differs from the initial path — not every
location segment appended by a walk method is popped before the method
returns. -/
theorem clusters_walk_keeps_segment :
    (getCoherenceClusters pTwoClusters envAcceptAll 1 LocationContext.empty).2.path ≠
      LocationContext.empty.path := by decide

/-- Claim C5, amended: per-instance location discipline holds — after every
instance the bound name token is removed and the location is restored, for
any environment (including ones where every relocation fails); the
cache-config and coherence-resource walks pop their appended segment and
return the location exactly as given; the cluster walk, however, appends the
root segment to a private copy of the base location and returns that copy
with the segment still appended (tokens fully restored), which leaves the
caller location unaffected only because the copy is discarded. -/
theorem location_restored (p : Provider) (env : Env) (fuel : Nat)
    (loc base : LocationContext)
    (hCc : loc.tokens.filter
      (fun q => q.1 != p.nameToken (loc.path ++ [COHERENCE_CACHE_CONFIG])) = loc.tokens)
    (h1 : base.tokens.filter
      (fun q => q.1 != p.nameToken (base.path ++ [COHERENCE_CLUSTER_SYSTEM_RESOURCE])) =
      base.tokens)
    (h2 : p.nameToken (base.path ++ [COHERENCE_CLUSTER_SYSTEM_RESOURCE]) ≠
      p.nameToken (base.path ++ [COHERENCE_CLUSTER_SYSTEM_RESOURCE] ++ [COHERENCE_CACHE_CONFIG]))
    (h3 : base.tokens.filter
      (fun q => q.1 != p.nameToken
        (base.path ++ [COHERENCE_CLUSTER_SYSTEM_RESOURCE] ++ [COHERENCE_CACHE_CONFIG])) =
      base.tokens) :
    (getCoherenceResource p env fuel loc).2 = loc
    ∧ (getCoherenceCacheConfig p env fuel loc).2 = loc
    ∧ (getCoherenceClusters p env fuel base).2 =
        base.appendLocation COHERENCE_CLUSTER_SYSTEM_RESOURCE :=
  ⟨getCoherenceResource_loc p env fuel loc,
   getCoherenceCacheConfig_loc p env fuel loc hCc,
   getCoherenceClusters_loc p env fuel base h1 h2 h3⟩

/-- Claim C5, witness: the amended theorem applied to a concrete provider
with two clusters and per-path name tokens, starting from the empty
location. -/
theorem location_restored_witness :
    (LocationContext.empty.tokens.filter
      (fun q => q.1 != pTwoClusters.nameToken
        (LocationContext.empty.path ++ [COHERENCE_CACHE_CONFIG])) =
      LocationContext.empty.tokens)
    ∧ (LocationContext.empty.tokens.filter
      (fun q => q.1 != pTwoClusters.nameToken
        (LocationContext.empty.path ++ [COHERENCE_CLUSTER_SYSTEM_RESOURCE])) =
      LocationContext.empty.tokens)
    ∧ (pTwoClusters.nameToken (LocationContext.empty.path ++
        [COHERENCE_CLUSTER_SYSTEM_RESOURCE]) ≠
      pTwoClusters.nameToken (LocationContext.empty.path ++
        [COHERENCE_CLUSTER_SYSTEM_RESOURCE] ++ [COHERENCE_CACHE_CONFIG]))
    ∧ ((getCoherenceResource pTwoClusters envAcceptAll 1 LocationContext.empty).2 =
        LocationContext.empty
      ∧ (getCoherenceCacheConfig pTwoClusters envAcceptAll 1 LocationContext.empty).2 =
        LocationContext.empty
      ∧ (getCoherenceClusters pTwoClusters envAcceptAll 1 LocationContext.empty).2 =
        LocationContext.empty.appendLocation COHERENCE_CLUSTER_SYSTEM_RESOURCE) :=
  ⟨rfl, rfl, by decide,
   location_restored pTwoClusters envAcceptAll 1 LocationContext.empty LocationContext.empty
     rfl rfl (by decide) rfl⟩

/-- Claim C6: in the spec scenario — one cluster myCluster whose
COHERENCE_CACHE_CONFIG_FILE attribute is the local path /tmp/cache-config.xml
and an archive that accepts the file under
wlsdeploy/coherence/myCluster/cache-config.xml — the discovered model maps
CoherenceClusterSystemResource to myCluster to CoherenceCacheConfigFile to
that archive-assigned name. -/
theorem scenario_model :
    discover pScenario envScenario 1 LocationContext.empty [] =
      (COHERENCE_CLUSTER_SYSTEM_RESOURCE,
       [(COHERENCE_CLUSTER_SYSTEM_RESOURCE, Model.dict
         [("myCluster", Model.dict
           [(COHERENCE_CACHE_CONFIG_FILE,
             Model.leaf (some "wlsdeploy/coherence/myCluster/cache-config.xml"))])])]) := rfl

/-- Claim C7: for every non-null persistence-directory value, the handler of
each kind (active, snapshot, trash) asks the archive for a directory of the
corresponding kind tag for the owning cluster and returns the
archive-assigned name; the original value is never inspected — the
conclusion is independent of the value v. -/
theorem persistence_success (env : Env) (cn : Option String) (v na ns nt : String)
    (hA : env.addPersistenceDirectory cn "active" = .ok na)
    (hS : env.addPersistenceDirectory cn "snapshot" = .ok ns)
    (hT : env.addPersistenceDirectory cn "trash" = .ok nt) :
    addActiveDirectory env cn (some v) = ([.archivePersistDir cn "active"], .ok (some na))
    ∧ addSnapshotDirectory env cn (some v) = ([.archivePersistDir cn "snapshot"], .ok (some ns))
    ∧ addTrashDirectory env cn (some v) = ([.archivePersistDir cn "trash"], .ok (some nt)) := by
  refine ⟨?_, ?_, ?_⟩ <;>
    simp [addActiveDirectory, addSnapshotDirectory, addTrashDirectory,
      addPersistenceDirectory, hA, hS, hT]

/-- Claim C7, witness: the theorem applied to a concrete accepting archive
and the value "/x". -/
theorem persistence_success_witness :
    envAcceptAll.addPersistenceDirectory (some "c") "active" = .ok "archived-dir"
    ∧ envAcceptAll.addPersistenceDirectory (some "c") "snapshot" = .ok "archived-dir"
    ∧ envAcceptAll.addPersistenceDirectory (some "c") "trash" = .ok "archived-dir"
    ∧ (addActiveDirectory envAcceptAll (some "c") (some "/x") =
        ([.archivePersistDir (some "c") "active"], .ok (some "archived-dir"))
      ∧ addSnapshotDirectory envAcceptAll (some "c") (some "/x") =
        ([.archivePersistDir (some "c") "snapshot"], .ok (some "archived-dir"))
      ∧ addTrashDirectory envAcceptAll (some "c") (some "/x") =
        ([.archivePersistDir (some "c") "trash"], .ok (some "archived-dir"))) :=
  ⟨rfl, rfl, rfl,
   persistence_success envAcceptAll (some "c") "/x" "archived-dir" "archived-dir" "archived-dir"
     rfl rfl rfl⟩

/-- Claim C8: for every reference that parses as a URI with a scheme other
than http (https included, and scheme-less local paths), the value is
archived via the file-based operation on the original string — the result is
exactly the file-branch outcome — and no remote-fetch operation occurs. -/
theorem cacheConfig_nonHttp (env : Env) (cn : Option String) (v : String) (u : Uri)
    (h1 : env.uriParse v = some u) (h2 : u.scheme ≠ some "http") :
    (addCacheConfig env cn (some v) =
      match env.addConfigFile cn (some v) with
      | .ok n => ([.uriParseAttempt v, .archiveConfigFile cn (some v)], some n)
      | .error _ => ([.uriParseAttempt v, .archiveConfigFile cn (some v),
                      .warn "WLSDPLY-06318"], none))
    ∧ (addCacheConfig env cn (some v)).1.any isRemoteFetch = false := by
  cases har : env.addConfigFile cn (some v) <;>
    simp [addCacheConfig, getFromUrl, h1, h2, har, isRemoteFetch]

/-- Claim C8, witness: the theorem applied to the https reference
"https://host/cache.xml", which is archived via the file-based operation. -/
theorem cacheConfig_nonHttp_witness :
    envHttps.uriParse "https://host/cache.xml" =
      some ⟨some "https", some "https://host/cache.xml"⟩
    ∧ (Uri.scheme ⟨some "https", some "https://host/cache.xml"⟩ ≠ some "http")
    ∧ (addCacheConfig envHttps (some "c") (some "https://host/cache.xml") =
        ([.uriParseAttempt "https://host/cache.xml",
          .archiveConfigFile (some "c") (some "https://host/cache.xml")],
         some "archived-local")
      ∧ (addCacheConfig envHttps (some "c") (some "https://host/cache.xml")).1.any
          isRemoteFetch = false) :=
  ⟨rfl, by decide, by
    have h := cacheConfig_nonHttp envHttps (some "c") "https://host/cache.xml"
      ⟨some "https", some "https://host/cache.xml"⟩ rfl (by decide)
    exact ⟨by rw [h.1]; rfl, h.2⟩⟩

/-- Claim C9: discover() performs the cluster walk once and returns the
well-known root key together with the dictionary supplied at construction,
extended in place by the walk result under that key exactly when the result
is non-empty (every pre-existing entry is preserved). -/
theorem discover_folds_once (p : Provider) (env : Env) (fuel : Nat)
    (base : LocationContext) (d : List (String × Model)) :
    discover p env fuel base d =
      (COHERENCE_CLUSTER_SYSTEM_RESOURCE,
       if (getCoherenceClusters p env fuel base).1.2.isEmpty then d
       else d ++ [(COHERENCE_CLUSTER_SYSTEM_RESOURCE,
                   Model.dict (getCoherenceClusters p env fuel base).1.2)]) := by
  simp only [discover, addToModelIfNotEmpty, getCoherenceClusters_fst]

/-- Claim C10: every registered handler maps a null attribute value to null
while performing no external operation at all — no canonicalization, no URL
classification, no archive call (the event list is empty). -/
theorem handlers_null (env : Env) (cn : Option String) (d : String) :
    addCustomConfigurationToArchive env cn none = ([], none)
    ∧ addCacheConfig env cn none = ([], none)
    ∧ addPersistenceDirectory env cn none d = ([], .ok none)
    ∧ addActiveDirectory env cn none = ([], .ok none)
    ∧ addSnapshotDirectory env cn none = ([], .ok none)
    ∧ addTrashDirectory env cn none = ([], .ok none) :=
  ⟨rfl, rfl, rfl, rfl, rfl, rfl⟩

end WDT
